import Mathlib

/-!
Shallow embedding of the go-mux product CRUD service.

The service (model.go plus the App handler file) manages a single `products`
table through five handlers.  We embed:

  * the `product` struct (JSON fields id / name / price);
  * the database as an explicit state: the table rows in storage order, the
    auto-increment sequence `nextId`, and an optional injected backend fault
    (`fault = some msg` means every SQL statement fails with message `msg`,
    modelling a broken connection / backend error);
  * the data-access methods of model.go as state-passing functions;
  * `strconv.Atoi` (64-bit Go int: syntax errors yield value 0, range errors
    yield the clamped extremum, both with a non-nil error);
  * Go JSON decoding of a request body into a `product` (missing or null
    fields keep their zero value, wrongly-typed fields are an error);
  * Go slices as `GoSlice` (a nil slice and a non-nil slice marshal
    differently: `null` vs `[...]`);
  * the five HTTP handlers, returning a `Response` (status code + payload).

JSON numbers are modelled as `Rat` (the service never computes with prices,
it only carries them through).
-/

/-- The `product` struct of model.go: `id`, `name`, `price` JSON fields. -/
structure product where
  ID : Int
  Name : String
  Price : Rat
deriving DecidableEq, Repr

/-- Database errors surfaced by the sql package: `sql.ErrNoRows` from a
`QueryRow(...).Scan` that matched no row, or any other backend error. -/
inductive DbErr where
  | noRows
  | other (msg : String)
deriving DecidableEq, Repr

/-- `err.Error()` for the modelled sql errors (`sql.ErrNoRows` prints
"sql: no rows in result set"). -/
def DbErr.message : DbErr → String
  | .noRows => "sql: no rows in result set"
  | .other m => m

/-- The database state behind `*sql.DB`: table rows in storage order, the
auto-increment sequence value, and an optional backend fault that makes
every statement fail with the given message. -/
structure DB where
  rows : List product
  nextId : Int
  fault : Option String
deriving DecidableEq, Repr

/-- Auto-increment well-formedness: every stored id was assigned by the
sequence, hence is below `nextId`. -/
def DB.wf (db : DB) : Bool :=
  db.rows.all (fun q => q.ID < db.nextId)

/-- model.go `(p *product) getProduct`: `SELECT name, price FROM products
WHERE id=$1` with `p.ID`, scanning into `p.Name` and `p.Price`.  Zero
matching rows surface as `sql.ErrNoRows`. -/
def product.getProduct (p : product) (db : DB) : Except DbErr product :=
  match db.fault with
  | some msg => .error (.other msg)
  | none =>
    match db.rows.find? (fun q => q.ID == p.ID) with
    | none => .error .noRows
    | some q => .ok { p with Name := q.Name, Price := q.Price }

/-- model.go `(p *product) updateProduct`: `UPDATE products SET name=$1,
price=$2 WHERE id=$3`.  The affected-row count is discarded (`_, err :=`),
so a statement matching zero rows still returns a nil error. -/
def product.updateProduct (p : product) (db : DB) : Except String DB :=
  match db.fault with
  | some msg => .error msg
  | none =>
    let newRows := db.rows.map (fun q =>
      if q.ID == p.ID then { q with Name := p.Name, Price := p.Price } else q)
    .ok { db with rows := newRows }

/-- model.go `(p *product) deleteProduct`: `DELETE FROM products WHERE
id=$1`; the affected-row count is discarded. -/
def product.deleteProduct (p : product) (db : DB) : Except String DB :=
  match db.fault with
  | some msg => .error msg
  | none => .ok { db with rows := db.rows.filter (fun q => !(q.ID == p.ID)) }

/-- model.go `(p *product) createProduct`: `INSERT INTO products(name, price)
VALUES($1, $2) RETURNING id`, scanning the generated id into `p.ID`.  The
new row is appended in storage order and the sequence advances. -/
def product.createProduct (p : product) (db : DB) : Except String (product × DB) :=
  match db.fault with
  | some msg => .error msg
  | none =>
    let newId := db.nextId
    let newRow : product := { p with ID := newId }
    .ok (newRow, { db with rows := db.rows ++ [newRow], nextId := db.nextId + 1 })

/-- A Go slice of products: `nil` and the empty non-nil slice `[]product{}`
are distinct values (they marshal to `null` and `[]` respectively). -/
inductive GoSlice (α : Type) where
  | nil
  | mk (l : List α)
deriving DecidableEq, Repr

/-- Go `append` on a slice (append to nil allocates a non-nil slice). -/
def GoSlice.append {α : Type} : GoSlice α → α → GoSlice α
  | .nil, a => .mk [a]
  | .mk l, a => .mk (l ++ [a])

/-- `json.Marshal` on a slice, parameterised by the element encoder: a nil
slice marshals to `null`, a non-nil slice to a JSON array. -/
def GoSlice.marshal {α : Type} (s : GoSlice α) (enc : α → String) : String :=
  match s with
  | .nil => "null"
  | .mk l => "[" ++ String.intercalate "," (l.map enc) ++ "]"

/-- model.go `getProducts`: `SELECT id, name, price FROM products LIMIT $1
OFFSET $2`; on query failure it returns `(nil, err)`, otherwise it starts
from the non-nil empty slice `products := []product{}` and appends each
scanned row. -/
def getProducts (db : DB) (start count : Int) : Except String (GoSlice product) :=
  match db.fault with
  | some msg => .error msg
  | none =>
    let selected := (db.rows.drop start.toNat).take count.toNat
    .ok (selected.foldl (fun acc p => acc.append p) (GoSlice.mk []))

/-- Result of `strconv.Atoi`: the returned int value plus whether the error
was nil. -/
structure AtoiResult where
  val : Int
  ok : Bool
deriving DecidableEq, Repr

/-- `math.MaxInt64` (Go `int` is 64-bit here). -/
def maxI64 : Int := 9223372036854775807

/-- `math.MinInt64`. -/
def minI64 : Int := -9223372036854775808

/-- The char is an ASCII decimal digit (the route pattern `[0-9]`). -/
def isDigitCh (c : Char) : Bool := '0' ≤ c && c ≤ '9'

/-- Value of a decimal digit string. -/
def decimalVal (l : List Char) : Nat :=
  l.foldl (fun a c => a * 10 + (c.toNat - 48)) 0

/-- `strconv.Atoi` (= `ParseInt(s, 10, 0)` with 64-bit int): an optional
sign followed by at least one digit; a syntax error returns value 0 with a
non-nil error; an out-of-range value returns the clamped extremum with a
non-nil `ErrRange`. -/
def goAtoi (s : String) : AtoiResult :=
  let l := s.data
  let neg : Bool := l.head? = some '-'
  let ds : List Char := if l.head? = some '+' ∨ l.head? = some '-' then l.tail else l
  if ds.isEmpty then ⟨0, false⟩
  else if ds.all isDigitCh then
    let n : Int := (decimalVal ds : Nat)
    if neg then
      if n > 9223372036854775808 then ⟨minI64, false⟩ else ⟨-n, true⟩
    else
      if n > maxI64 then ⟨maxI64, false⟩ else ⟨n, true⟩
  else ⟨0, false⟩

/-- The gorilla/mux route variable pattern `{id:[0-9]+}`: the path segment
is a non-empty string of decimal digits. -/
def matchesIdPattern (s : String) : Bool :=
  !s.data.isEmpty && s.data.all isDigitCh

/-- A JSON value (numbers as exact rationals; the service only carries
prices through, never computes with them). -/
inductive JVal where
  | null
  | bool (b : Bool)
  | num (q : Rat)
  | str (s : String)
  | arr (elems : List JVal)
  | obj (fields : List (String × JVal))

/-- Look up an object field; Go keeps the last value of a duplicated key. -/
def fieldLookup (fields : List (String × JVal)) (k : String) : Option JVal :=
  (fields.reverse.find? (fun kv => kv.1 == k)).map (fun kv => kv.2)

/-- Decode a JSON field into the `ID int` struct field: absent or `null`
keeps the zero value; a number must be an integer in int64 range; any other
kind is a decode error. -/
def decodeIdField (v : Option JVal) : Option Int :=
  match v with
  | none => some 0
  | some .null => some 0
  | some (.num q) => if q.den = 1 ∧ minI64 ≤ q.num ∧ q.num ≤ maxI64 then some q.num else none
  | some _ => none

/-- Decode a JSON field into the `Name string` struct field. -/
def decodeNameField (v : Option JVal) : Option String :=
  match v with
  | none => some ""
  | some .null => some ""
  | some (.str s) => some s
  | some _ => none

/-- Decode a JSON field into the `Price float64` struct field. -/
def decodePriceField (v : Option JVal) : Option Rat :=
  match v with
  | none => some 0
  | some .null => some 0
  | some (.num q) => some q
  | some _ => none

/-- `json.NewDecoder(r.Body).Decode(&p)` for `p : product`.  The request
body is `none` when it is not well-formed JSON; otherwise it carries the
first JSON value.  Decoding succeeds on an object (missing / null fields
keep their zero values, unknown fields are ignored) and on `null` (no-op);
any other top-level kind or a wrongly-typed field is an error. -/
def decodeProduct (body : Option JVal) : Option product :=
  match body with
  | none => none
  | some .null => some ⟨0, "", 0⟩
  | some (.obj fields) => do
      let id ← decodeIdField (fieldLookup fields "id")
      let name ← decodeNameField (fieldLookup fields "name")
      let price ← decodePriceField (fieldLookup fields "price")
      some ⟨id, name, price⟩
  | some _ => none

/-- The JSON payload handed to `respondWithJSON`: an `{"error": msg}` map
(from `respondWithError`), a `{"result": msg}` map, a single product, or a
slice of products. -/
inductive Payload where
  | errObj (msg : String)
  | resultObj (msg : String)
  | prodBody (p : product)
  | listBody (s : GoSlice product)
deriving DecidableEq, Repr

/-- An HTTP response: status code plus JSON payload. -/
structure Response where
  code : Nat
  payload : Payload
deriving DecidableEq, Repr

/-- `respondWithError(w, code, message)`: a `{"error": message}` payload. -/
def respondWithError (code : Nat) (message : String) : Response :=
  ⟨code, .errObj message⟩

/-- Handler `App.getProduct`: parse the `id` route variable with Atoi (400
on error), fetch via model.go `getProduct`, map `sql.ErrNoRows` to 404
"Product not found", any other failure to 500 with `err.Error()`. -/
def App.getProduct (db : DB) (idStr : String) : Response :=
  let r := goAtoi idStr
  if r.ok = false then respondWithError 400 "Invalid product ID"
  else
    let p : product := { ID := r.val, Name := "", Price := 0 }
    match p.getProduct db with
    | .error .noRows => respondWithError 404 "Product not found"
    | .error e => respondWithError 500 e.message
    | .ok p2 => ⟨200, .prodBody p2⟩

/-- The `count`/`start` computation of handler `App.getProducts`:
`strconv.Atoi` with the error discarded, then the clamp
`if count > 10 || count < 1 { count = 10 }` and
`if start < 0 { start = 0 }`.  Returns `(start, count)` as passed to the
range query. -/
def App.getProductsParams (countStr startStr : String) : Int × Int :=
  let count := (goAtoi countStr).val
  let start := (goAtoi startStr).val
  let count := if count > 10 ∨ count < 1 then 10 else count
  let start := if start < 0 then 0 else start
  (start, count)

/-- Alias for model.go `getProducts`, needed because inside the `App`
namespace the bare name would resolve to the handler. -/
def getProductsRange (db : DB) (start count : Int) : Except String (GoSlice product) :=
  getProducts db start count

/-- Handler `App.getProducts`: clamp the query parameters, run the range
query, 500 on failure, else 200 with the slice. -/
def App.getProducts (db : DB) (countStr startStr : String) : Response :=
  let sc := App.getProductsParams countStr startStr
  match getProductsRange db sc.1 sc.2 with
  | .error msg => respondWithError 500 msg
  | .ok ps => ⟨200, .listBody ps⟩

/-- Handler `App.createProduct`: decode the body (400 "Invalid request
payload" on error), insert (500 on failure), else 201 with the product as
returned by the insert (id assigned by the database). -/
def App.createProduct (db : DB) (body : Option JVal) : Response × DB :=
  match decodeProduct body with
  | none => (respondWithError 400 "Invalid request payload", db)
  | some p =>
    match p.createProduct db with
    | .error msg => (respondWithError 500 msg, db)
    | .ok (p2, db2) => (⟨201, .prodBody p2⟩, db2)

/-- Handler `App.updateProduct`: parse the `id` route variable (400 on
error), decode the body (400 "Invalid resquest payload" on error — note the
typo), overwrite `p.ID` with the path id, update (500 on failure), else 200
with the submitted product (not re-read from storage). -/
def App.updateProduct (db : DB) (idStr : String) (body : Option JVal) : Response × DB :=
  let r := goAtoi idStr
  if r.ok = false then (respondWithError 400 "Invalid product ID", db)
  else
    match decodeProduct body with
    | none => (respondWithError 400 "Invalid resquest payload", db)
    | some p0 =>
      let p : product := { p0 with ID := r.val }
      match p.updateProduct db with
      | .error msg => (respondWithError 500 msg, db)
      | .ok db2 => (⟨200, .prodBody p⟩, db2)

/-- Handler `App.deleteProduct`: parse the `id` route variable (400
"Invalid Product ID" on error), delete (500 on failure), else 200 with
`{"result": "success"}`. -/
def App.deleteProduct (db : DB) (idStr : String) : Response × DB :=
  let r := goAtoi idStr
  if r.ok = false then (respondWithError 400 "Invalid Product ID", db)
  else
    let p : product := { ID := r.val, Name := "", Price := 0 }
    match p.deleteProduct db with
    | .error msg => (respondWithError 500 msg, db)
    | .ok db2 => (⟨200, .resultObj "success"⟩, db2)

/-! ## Theorems -/

/-- Helper: looking up a freshly appended row whose id is strictly above
every stored id finds exactly that row. -/
theorem find_fresh_append (rows : List product) (n : Int) (r : product)
    (h : ∀ q ∈ rows, q.ID < n) (hr : r.ID = n) :
    (rows ++ [r]).find? (fun q => q.ID == n) = some r := by
  induction rows with
  | nil =>
    simp [List.find?_cons_of_pos, hr]
  | cons a t ih =>
    have ha : a.ID ≠ n := Int.ne_of_lt (h a (List.mem_cons_self a t))
    have hb : ¬ ((fun q => q.ID == n) a = true) := by simp [ha]
    have hstep : List.find? (fun q => q.ID == n) (a :: (t ++ [r])) =
        List.find? (fun q => q.ID == n) (t ++ [r]) := List.find?_cons_of_neg _ hb
    rw [List.cons_append, hstep]
    exact ih (fun q hq => h q (List.mem_cons_of_mem a hq))

/-- C1: for every valid (name, price), performing createProduct (insert)
and then getProduct (fetchOne) with the id returned by the insert yields a
product whose id equals the returned id and whose name and price are
identical to those submitted. -/
theorem createProduct_then_getProduct (db : DB) (p0 : product)
    (hf : db.fault = none) (hwf : db.wf = true) :
    ∃ p1 db1, p0.createProduct db = .ok (p1, db1) ∧
      p1.ID = db.nextId ∧ p1.Name = p0.Name ∧ p1.Price = p0.Price ∧
      (product.mk p1.ID "" 0).getProduct db1 = .ok ⟨p1.ID, p0.Name, p0.Price⟩ := by
  have hlt : ∀ q ∈ db.rows, q.ID < db.nextId := by
    intro q hq
    exact of_decide_eq_true (List.all_eq_true.mp hwf q hq)
  refine ⟨{ p0 with ID := db.nextId },
    { db with rows := db.rows ++ [{ p0 with ID := db.nextId }], nextId := db.nextId + 1 },
    ?_, rfl, rfl, rfl, ?_⟩
  · simp [product.createProduct, hf]
  · simp only [product.getProduct, hf]
    rw [find_fresh_append db.rows db.nextId _ hlt rfl]

/-- C1 witness. -/
theorem createProduct_then_getProduct_witness :
    ∃ p1 db1, (product.mk 0 "widget" 5).createProduct ⟨[], 1, none⟩ = .ok (p1, db1) ∧
      p1.ID = 1 ∧ p1.Name = "widget" ∧ p1.Price = 5 ∧
      (product.mk p1.ID "" 0).getProduct db1 = .ok ⟨p1.ID, "widget", 5⟩ :=
  createProduct_then_getProduct ⟨[], 1, none⟩ ⟨0, "widget", 5⟩ rfl (by decide)

/-- C2: the `count` and `start` query parameters are optional with defaults
`count = 10`, `start = 0`; a parsed count outside [1,10] is reset to 10 and
a negative parsed start is reset to 0 before the range query runs. -/
theorem getProducts_clamp (countStr startStr : String) :
    (((goAtoi countStr).val > 10 ∨ (goAtoi countStr).val < 1) →
        (App.getProductsParams countStr startStr).2 = 10) ∧
    ((1 ≤ (goAtoi countStr).val ∧ (goAtoi countStr).val ≤ 10) →
        (App.getProductsParams countStr startStr).2 = (goAtoi countStr).val) ∧
    (((goAtoi startStr).val < 0) → (App.getProductsParams countStr startStr).1 = 0) ∧
    ((0 ≤ (goAtoi startStr).val) →
        (App.getProductsParams countStr startStr).1 = (goAtoi startStr).val) ∧
    App.getProductsParams "" "" = (0, 10) ∧
    (∀ db, App.getProducts db countStr startStr =
       match getProductsRange db (App.getProductsParams countStr startStr).1
           (App.getProductsParams countStr startStr).2 with
       | .error msg => respondWithError 500 msg
       | .ok ps => ⟨200, .listBody ps⟩) := by
  have hc : (App.getProductsParams countStr startStr).2 =
      if (goAtoi countStr).val > 10 ∨ (goAtoi countStr).val < 1 then 10
      else (goAtoi countStr).val := rfl
  have hs : (App.getProductsParams countStr startStr).1 =
      if (goAtoi startStr).val < 0 then 0 else (goAtoi startStr).val := rfl
  refine ⟨?_, ?_, ?_, ?_, by decide, fun db => rfl⟩
  · intro h; rw [hc, if_pos h]
  · intro h; rw [hc, if_neg (by omega)]
  · intro h; rw [hs, if_pos h]
  · intro h; rw [hs, if_neg (by omega)]

/-- C2 witness. -/
theorem getProducts_clamp_witness :
    (App.getProductsParams "99" "-3").2 = 10 ∧
    (App.getProductsParams "99" "-3").1 = 0 ∧
    App.getProductsParams "" "" = (0, 10) :=
  ⟨(getProducts_clamp "99" "-3").1 (by decide),
   (getProducts_clamp "99" "-3").2.2.1 (by decide),
   (getProducts_clamp "" "").2.2.2.2.1⟩

/-- C3: a GetProduct request whose id matches no stored row responds
404 with exactly "Product not found"; any other data-access failure
responds 500 with the underlying error message. -/
theorem getProduct_error_mapping :
    (∀ db idStr, (goAtoi idStr).ok = true → db.fault = none →
       db.rows.find? (fun q => q.ID == (goAtoi idStr).val) = none →
       App.getProduct db idStr = respondWithError 404 "Product not found") ∧
    (∀ db idStr msg, (goAtoi idStr).ok = true → db.fault = some msg →
       App.getProduct db idStr = respondWithError 500 msg) := by
  constructor
  · intro db idStr hok hf hfind
    simp [App.getProduct, product.getProduct, hok, hf, hfind]
  · intro db idStr msg hok hf
    simp [App.getProduct, product.getProduct, hok, hf, DbErr.message]

/-- C3 witness. -/
theorem getProduct_error_mapping_witness :
    App.getProduct ⟨[], 1, none⟩ "5" = respondWithError 404 "Product not found" ∧
    App.getProduct ⟨[], 1, some "boom"⟩ "5" = respondWithError 500 "boom" :=
  ⟨getProduct_error_mapping.1 ⟨[], 1, none⟩ "5" (by decide) rfl rfl,
   getProduct_error_mapping.2 ⟨[], 1, some "boom"⟩ "5" "boom" (by decide) rfl⟩

/-- C4: update and delete never inspect the affected-row count: with a
healthy backend, updating or deleting any id — stored or not — succeeds
(200 with the submitted product, resp. 200 with the "success" marker). -/
theorem update_delete_ignore_row_count :
    (∀ db idStr body p0, (goAtoi idStr).ok = true → decodeProduct body = some p0 →
       db.fault = none →
       (App.updateProduct db idStr body).1 =
         ⟨200, .prodBody ⟨(goAtoi idStr).val, p0.Name, p0.Price⟩⟩) ∧
    (∀ db idStr, (goAtoi idStr).ok = true → db.fault = none →
       (App.deleteProduct db idStr).1 = ⟨200, .resultObj "success"⟩) := by
  constructor
  · intro db idStr body p0 hok hdec hf
    simp [App.updateProduct, product.updateProduct, hok, hdec, hf]
  · intro db idStr hok hf
    simp [App.deleteProduct, product.deleteProduct, hok, hf]

/-- C4 witness: the table is empty, so id 7 does not exist, yet both
operations report success. -/
theorem update_delete_ignore_row_count_witness :
    (App.updateProduct ⟨[], 1, none⟩ "7" (some (.obj []))).1 =
      ⟨200, .prodBody ⟨7, "", 0⟩⟩ ∧
    (App.deleteProduct ⟨[], 1, none⟩ "7").1 = ⟨200, .resultObj "success"⟩ :=
  ⟨update_delete_ignore_row_count.1 ⟨[], 1, none⟩ "7" (some (.obj [])) ⟨0, "", 0⟩
     (by decide) rfl rfl,
   update_delete_ignore_row_count.2 ⟨[], 1, none⟩ "7" (by decide) rfl⟩

/-- C5 counterexample: a 19-digit id matches the route pattern `[0-9]+`
but overflows Go's 64-bit int, so `strconv.Atoi` fails and the handler's
"dead" defensive branch answers 400 "Invalid product ID". -/
theorem route_numeric_overflow_reaches_400 :
    matchesIdPattern "9999999999999999999" = true ∧
    (goAtoi "9999999999999999999").ok = false ∧
    App.getProduct ⟨[], 1, none⟩ "9999999999999999999" =
      respondWithError 400 "Invalid product ID" :=
  ⟨by decide, by decide, by decide⟩

/-- C5 (amended): whenever the id segment matches `[0-9]+` and its decimal
value fits in a 64-bit int, `strconv.Atoi` succeeds and the 400 "Invalid
product ID" branch is unreachable. -/
theorem route_numeric_inrange_parses (s : String)
    (hm : matchesIdPattern s = true)
    (hb : (decimalVal s.data : Int) ≤ maxI64) :
    goAtoi s = ⟨(decimalVal s.data : Int), true⟩ ∧
    ∀ db, App.getProduct db s ≠ respondWithError 400 "Invalid product ID" := by
  rw [matchesIdPattern, Bool.and_eq_true] at hm
  obtain ⟨hne, hall⟩ := hm
  have hall2 : ∀ c ∈ s.data, isDigitCh c = true := List.all_eq_true.mp hall
  have hgo : goAtoi s = ⟨(decimalVal s.data : Int), true⟩ := by
    cases hl : s.data with
    | nil => rw [hl] at hne; simp at hne
    | cons c t =>
      have hc : isDigitCh c = true := hall2 c (by rw [hl]; exact List.mem_cons_self c t)
      have hcp : c ≠ '+' := by
        intro h; rw [h] at hc; exact absurd hc (by decide)
      have hcm : c ≠ '-' := by
        intro h; rw [h] at hc; exact absurd hc (by decide)
      have hcond : ¬ (s.data.head? = some '+' ∨ s.data.head? = some '-') := by
        rw [hl]; simp [hcp, hcm]
      have hallct : (c :: t).all isDigitCh = true := hl ▸ hall
      have hbct : ((decimalVal (c :: t) : Int)) ≤ maxI64 := hl ▸ hb
      simp only [goAtoi]
      rw [if_neg hcond, hl]
      rw [if_neg (by simp)]
      rw [if_pos hallct]
      rw [if_neg (by simp [hcm])]
      rw [if_neg (not_lt.mpr hbct)]
  refine ⟨hgo, ?_⟩
  intro db heq
  have hok : (goAtoi s).ok = true := by rw [hgo]
  simp only [App.getProduct, hok, respondWithError] at heq
  rw [if_neg (by simp)] at heq
  split at heq <;> simp_all [respondWithError]

/-- C5 witness for the amended claim. -/
theorem route_numeric_inrange_parses_witness :
    goAtoi "42" = ⟨42, true⟩ ∧
    App.getProduct ⟨[], 1, none⟩ "42" ≠ respondWithError 400 "Invalid product ID" :=
  ⟨(route_numeric_inrange_parses "42" (by decide) (by decide)).1,
   (route_numeric_inrange_parses "42" (by decide) (by decide)).2 ⟨[], 1, none⟩⟩

/-- C6: CreateProduct responds 400 "Invalid request payload" when the body
does not decode, 500 when the insert fails, and otherwise 201 with the
created product carrying the id assigned by the storage layer. -/
theorem createProduct_handler_cases :
    (∀ db body, decodeProduct body = none →
       (App.createProduct db body).1 = respondWithError 400 "Invalid request payload") ∧
    (∀ db body p msg, decodeProduct body = some p → db.fault = some msg →
       (App.createProduct db body).1 = respondWithError 500 msg) ∧
    (∀ db body p, decodeProduct body = some p → db.fault = none →
       (App.createProduct db body).1 = ⟨201, .prodBody ⟨db.nextId, p.Name, p.Price⟩⟩) := by
  refine ⟨?_, ?_, ?_⟩
  · intro db body hdec
    simp [App.createProduct, hdec]
  · intro db body p msg hdec hf
    simp [App.createProduct, product.createProduct, hdec, hf]
  · intro db body p hdec hf
    simp [App.createProduct, product.createProduct, hdec, hf]

/-- C6 witness. -/
theorem createProduct_handler_cases_witness :
    (App.createProduct ⟨[], 1, none⟩ none).1 =
      respondWithError 400 "Invalid request payload" ∧
    (App.createProduct ⟨[], 1, some "down"⟩ (some (.obj []))).1 =
      respondWithError 500 "down" ∧
    (App.createProduct ⟨[], 1, none⟩
        (some (.obj [("name", .str "a"), ("price", .num 2)]))).1 =
      ⟨201, .prodBody ⟨1, "a", 2⟩⟩ :=
  ⟨createProduct_handler_cases.1 ⟨[], 1, none⟩ none rfl,
   createProduct_handler_cases.2.1 ⟨[], 1, some "down"⟩ (some (.obj [])) ⟨0, "", 0⟩ "down" rfl rfl,
   createProduct_handler_cases.2.2 ⟨[], 1, none⟩
     (some (.obj [("name", .str "a"), ("price", .num 2)])) ⟨0, "a", 2⟩ rfl rfl⟩

/-- C7: on UpdateProduct with a well-formed id and body, the path id
overrides any id in the JSON body and the 200 response carries the path id
with the submitted name and price, independent of the stored rows. -/
theorem updateProduct_path_id_overrides (db : DB) (idStr : String) (body : Option JVal)
    (p0 : product) (hok : (goAtoi idStr).ok = true) (hdec : decodeProduct body = some p0)
    (hf : db.fault = none) :
    (App.updateProduct db idStr body).1 =
      ⟨200, .prodBody ⟨(goAtoi idStr).val, p0.Name, p0.Price⟩⟩ := by
  simp [App.updateProduct, product.updateProduct, hok, hdec, hf]

/-- C7 witness: the body claims id 99 but the path id 7 wins. -/
theorem updateProduct_path_id_overrides_witness :
    (App.updateProduct ⟨[], 1, none⟩ "7"
       (some (.obj [("id", .num 99), ("name", .str "n"), ("price", .num 3)]))).1 =
      ⟨200, .prodBody ⟨7, "n", 3⟩⟩ :=
  updateProduct_path_id_overrides ⟨[], 1, none⟩ "7"
    (some (.obj [("id", .num 99), ("name", .str "n"), ("price", .num 3)]))
    ⟨99, "n", 3⟩ (by decide) rfl rfl

/-- C8: when the table holds no rows, the range query returns the empty
non-nil slice (not an error), the handler responds 200 with it, and it
marshals to the JSON text "[]" — unlike a nil slice, which marshals to
"null". -/
theorem getProducts_empty_table (db : DB) (countStr startStr : String)
    (enc : product → String) (hf : db.fault = none) (hr : db.rows = []) :
    (∀ start count, getProducts db start count = .ok (GoSlice.mk [])) ∧
    App.getProducts db countStr startStr = ⟨200, .listBody (GoSlice.mk [])⟩ ∧
    (GoSlice.mk ([] : List product)).marshal enc = "[]" ∧
    (GoSlice.nil : GoSlice product).marshal enc = "null" := by
  have h1 : ∀ start count, getProducts db start count = .ok (GoSlice.mk []) := by
    intro start count
    simp [getProducts, hf, hr]
  refine ⟨h1, ?_, rfl, rfl⟩
  simp [App.getProducts, getProductsRange, h1]

/-- C8 witness. -/
theorem getProducts_empty_table_witness :
    getProducts ⟨[], 1, none⟩ 0 10 = .ok (GoSlice.mk []) ∧
    App.getProducts ⟨[], 1, none⟩ "" "" = ⟨200, .listBody (GoSlice.mk [])⟩ ∧
    (GoSlice.mk ([] : List product)).marshal (fun _ => "") = "[]" :=
  have h := getProducts_empty_table ⟨[], 1, none⟩ "" "" (fun _ => "") rfl rfl
  ⟨h.1 0 10, h.2.1, h.2.2.1⟩

/-- C9 counterexample: a well-formed body that omits price (and id) is
accepted as-is — the decode succeeds with price defaulting to 0 and the
handler creates the product and answers 201. -/
theorem create_missing_price_accepted :
    decodeProduct (some (.obj [("name", .str "test product")])) =
      some ⟨0, "test product", 0⟩ ∧
    (App.createProduct ⟨[], 1, none⟩ (some (.obj [("name", .str "test product")]))).1 =
      ⟨201, .prodBody ⟨1, "test product", 0⟩⟩ :=
  ⟨rfl, rfl⟩

/-- C9 (amended): the handlers perform no required-field validation: a
well-formed JSON object body omitting price or name (or both) is accepted
by CreateProduct and UpdateProduct, the missing fields taking their zero
values (empty name, price 0). -/
theorem create_update_no_required_fields (db : DB) (name : String) (idStr : String)
    (hf : db.fault = none) (hok : (goAtoi idStr).ok = true) :
    (App.createProduct db (some (.obj [("name", .str name)]))).1 =
      ⟨201, .prodBody ⟨db.nextId, name, 0⟩⟩ ∧
    (App.createProduct db (some (.obj []))).1 = ⟨201, .prodBody ⟨db.nextId, "", 0⟩⟩ ∧
    (App.updateProduct db idStr (some (.obj []))).1 =
      ⟨200, .prodBody ⟨(goAtoi idStr).val, "", 0⟩⟩ := by
  have hd1 : decodeProduct (some (.obj [("name", .str name)])) = some ⟨0, name, 0⟩ := rfl
  have hd2 : decodeProduct (some (.obj [])) = some ⟨0, "", 0⟩ := rfl
  refine ⟨?_, ?_, ?_⟩
  · simp [App.createProduct, product.createProduct, hd1, hf]
  · simp [App.createProduct, product.createProduct, hd2, hf]
  · simp [App.updateProduct, product.updateProduct, hd2, hok, hf]

/-- C9 witness for the amended claim. -/
theorem create_update_no_required_fields_witness :
    (App.createProduct ⟨[], 1, none⟩ (some (.obj [("name", .str "x")]))).1 =
      ⟨201, .prodBody ⟨1, "x", 0⟩⟩ ∧
    (App.createProduct ⟨[], 1, none⟩ (some (.obj []))).1 =
      ⟨201, .prodBody ⟨1, "", 0⟩⟩ ∧
    (App.updateProduct ⟨[], 1, none⟩ "7" (some (.obj []))).1 =
      ⟨200, .prodBody ⟨7, "", 0⟩⟩ :=
  create_update_no_required_fields ⟨[], 1, none⟩ "x" "7" rfl (by decide)

/-- C10: a body that fails to decode makes UpdateProduct answer 400 with
the misspelled "Invalid resquest payload", a different string from the
"Invalid request payload" used by CreateProduct for the same condition. -/
theorem update_decode_typo_message :
    (∀ db idStr body, (goAtoi idStr).ok = true → decodeProduct body = none →
       (App.updateProduct db idStr body).1 =
         respondWithError 400 "Invalid resquest payload") ∧
    (∀ db body, decodeProduct body = none →
       (App.createProduct db body).1 = respondWithError 400 "Invalid request payload") ∧
    "Invalid resquest payload" ≠ "Invalid request payload" := by
  refine ⟨?_, ?_, by decide⟩
  · intro db idStr body hok hdec
    simp [App.updateProduct, hok, hdec]
  · intro db body hdec
    simp [App.createProduct, hdec]

/-- C10 witness. -/
theorem update_decode_typo_message_witness :
    (App.updateProduct ⟨[], 1, none⟩ "7" (some (.str "x"))).1 =
      respondWithError 400 "Invalid resquest payload" ∧
    (App.createProduct ⟨[], 1, none⟩ (some (.str "x"))).1 =
      respondWithError 400 "Invalid request payload" :=
  ⟨update_decode_typo_message.1 ⟨[], 1, none⟩ "7" (some (.str "x")) (by decide) rfl,
   update_decode_typo_message.2.1 ⟨[], 1, none⟩ (some (.str "x")) rfl⟩
